import Mathlib

/-!
Verification of the badge-generation pipeline of `generate_images.py`.

The development shallowly embeds the program: each awaited accessor of the
`Stats` object is modelled as an `Except Unit` value (`.ok v` when the fetch
succeeds, `.error ()` when it raises any exception, which the program catches
with a bare `except Exception`); Python's `f"{n:,}"` thousands formatting,
`re.sub` on the literal placeholder patterns, `sorted(..., reverse=True)`,
truthiness of optional strings, and the validation sequence of `main` are
each translated into executable Lean definitions below.
-/

/-- Result of one awaited accessor: `.ok` when the fetch succeeds, `.error ()`
when it raises (the program catches every `Exception` uniformly, so the error
payload is irrelevant and modelled as `Unit`). -/
abbrev Fetch (α : Type) : Type := Except Unit α

/-- One language's record in the breakdown returned by `s.languages`:
the Python dict holds keys `"size"`, `"color"` (may be `None`) and `"prop"`
(may be absent; the code reads it with `data.get("prop", 0)`).  The float
percentage is modelled as a rational. -/
structure LangData where
  size : Nat
  color : Option String
  prop : Option Rat
deriving DecidableEq, Repr

/-- The independently fallible accessors of the `Stats` object that
`generate_overview` and `generate_languages` await. -/
structure StatsFetches where
  name : Fetch String
  stargazers : Fetch Nat
  forks : Fetch Nat
  total_contributions : Fetch Nat
  lines_changed : Fetch (Nat × Nat)
  views : Fetch Nat
  repos : Fetch (List String)
  total_pull_requests : Fetch Nat
  total_issues_created : Fetch Nat
  languages : Fetch (List (String × LangData))

/-- Decimal digit string of a natural number (Python `str(n)` for `n ≥ 0`). -/
def natStr (n : Nat) : String := String.mk (Nat.toDigits 10 n)

/-- Insert a comma after every third digit, walking the digit list from the
least significant end; `k` counts the digits still to emit in the current
group.  Helper for `fmtComma`. -/
def commaAux (k : Nat) : List Char → List Char
  | [] => []
  | [c] => [c]
  | c :: c2 :: rest =>
    if k = 0 then c :: ',' :: commaAux 2 (c2 :: rest)
    else c :: commaAux (k - 1) (c2 :: rest)

/-- Python's thousands-separated integer formatting `f"{n:,}"`:
groups of three digits from the right, separated by commas. -/
def fmtComma (n : Nat) : String :=
  String.mk (commaAux 2 (Nat.toDigits 10 n).reverse).reverse

/-- The local display values computed by `generate_overview` (lines 41-87 of
`generate_images.py`): one `try/except` block per field. -/
structure OverviewVals where
  name_val : String
  stars_val : String
  forks_val : String
  contributions_val : String
  changed_val : String
  views_val : String
  repos_val : String
  pull_requests_val : String
  issues_val : String
deriving DecidableEq, Repr

/-- Field-by-field resolution of `generate_overview`: on success the fetched
value is formatted (`f"{...:,}"` for the counts, the raw string for the name,
the sum of the pair for lines changed, the length for repos); on any raised
exception the documented fallback is substituted. -/
def overviewValues (s : StatsFetches) : OverviewVals where
  name_val := match s.name with
    | .ok v => v
    | .error _ => "Unknown"
  stars_val := match s.stargazers with
    | .ok n => fmtComma n
    | .error _ => "0"
  forks_val := match s.forks with
    | .ok n => fmtComma n
    | .error _ => "0"
  contributions_val := match s.total_contributions with
    | .ok n => fmtComma n
    | .error _ => "0"
  changed_val := match s.lines_changed with
    | .ok lines => fmtComma (lines.1 + lines.2)
    | .error _ => "N/A"
  views_val := match s.views with
    | .ok n => fmtComma n
    | .error _ => "0"
  repos_val := match s.repos with
    | .ok l => fmtComma l.length
    | .error _ => "0"
  pull_requests_val := match s.total_pull_requests with
    | .ok n => fmtComma n
    | .error _ => "0"
  issues_val := match s.total_issues_created with
    | .ok n => fmtComma n
    | .error _ => "0"

/-- Names of the nine overview metric fields, in resolution order. -/
def overviewFieldNames : List String :=
  ["name", "stars", "forks", "contributions", "lines_changed",
   "views", "repos", "pull_requests", "issues"]

/-- The resolved mapping from field name to display string produced by one
overview resolution pass. -/
def resolvedMapping (s : StatsFetches) : List (String × String) :=
  let v := overviewValues s
  [("name", v.name_val), ("stars", v.stars_val), ("forks", v.forks_val),
   ("contributions", v.contributions_val), ("lines_changed", v.changed_val),
   ("views", v.views_val), ("repos", v.repos_val),
   ("pull_requests", v.pull_requests_val), ("issues", v.issues_val)]

/-!
The substitution engine.  The program calls Python's `re.sub(pattern, repl,
text)` with the fixed patterns `"{{ name }}"`, `"{{ stars }}"`, ...; none of
those patterns contains an active regex metacharacter (a brace that does not
form a valid quantifier is a literal in Python's `re`), so pattern matching is
literal, leftmost, non-overlapping replacement of every occurrence.  The
replacement string, however, is a regex replacement template: `re.sub`
processes backslash escapes in it (`\\` becomes one backslash, `\n` a newline,
`\g<0>` the matched text, an unknown letter escape or a reference to a
nonexistent group raises `re.error`).  `unescapeAux` models that template
processing (with `matched` the text matched by the literal pattern) and
`subAux` the scan-and-replace pass; both use an explicit fuel argument, always
called with fuel equal to the length of the list being consumed, so that they
are structurally recursive.
-/

deriving instance DecidableEq for Except

/-- Process one backslash escape of Python's regex replacement template:
given the characters after a backslash, return the text the escape emits and
the remaining characters, or `.error ()` for `re.error` (bad escape /
reference to a nonexistent group; the literal patterns used here have no
groups, so only `\g<0>` is a valid group reference). -/
def escStep (matched : List Char) : List Char → Except Unit (List Char × List Char)
  | [] => .error ()
  | d :: rest2 =>
    if d = '\\' then .ok (['\\'], rest2)
    else if d = 'n' then .ok (['\n'], rest2)
    else if d = 't' then .ok (['\t'], rest2)
    else if d = 'r' then .ok (['\r'], rest2)
    else if d = 'a' then .ok (['\x07'], rest2)
    else if d = 'b' then .ok (['\x08'], rest2)
    else if d = 'f' then .ok (['\x0c'], rest2)
    else if d = 'v' then .ok (['\x0b'], rest2)
    else if d = 'g' then
      match rest2 with
      | '<' :: '0' :: '>' :: rest3 => .ok (matched, rest3)
      | _ => .error ()
    else if d = '0' then .ok (['\x00'], rest2)
    else if d.isDigit then .error ()
    else if d.isAlpha then .error ()
    else .ok (['\\', d], rest2)

/-- Process Python's regex replacement template escapes: ordinary characters
pass through, a backslash starts an escape handled by `escStep`. -/
def unescapeAux (matched : List Char) : Nat → List Char → Except Unit (List Char)
  | _, [] => .ok []
  | 0, _ => .error ()
  | fuel + 1, c :: rest =>
    if c = '\\' then
      match escStep matched rest with
      | .error e => .error e
      | .ok (em, rest2) => (unescapeAux matched fuel rest2).map (em ++ ·)
    else (unescapeAux matched fuel rest).map (c :: ·)

/-- Replacement-template processing of `rep` for a match of the literal
pattern `matched`. -/
def unescapeRepl (matched rep : List Char) : Except Unit (List Char) :=
  unescapeAux matched rep.length rep

/-- Leftmost non-overlapping replacement of every occurrence of `pat` by
`rep`, scanning `l` from the left (the core of `re.sub` with a literal
pattern, once the replacement template has been processed). -/
def subAux (pat rep : List Char) : Nat → List Char → List Char
  | _, [] => []
  | 0, l => l
  | fuel + 1, c :: rest =>
    if pat.isPrefixOf (c :: rest) then
      rep ++ subAux pat rep fuel (List.drop pat.length (c :: rest))
    else c :: subAux pat rep fuel rest

/-- Python's `re.sub(pat, rep, s)` for the literal patterns the program uses:
the replacement template is processed once (raising on a bad escape), then
every occurrence of the pattern is replaced. -/
def pyReSub (pat rep s : String) : Except Unit String :=
  match unescapeRepl pat.data rep.data with
  | .error e => .error e
  | .ok r => .ok (String.mk (subAux pat.data r s.data.length s.data))

/-- Modelled from the spec: plain text substitution, the replacement
"inserted verbatim, with no escaping or interpretation of the replacement's
characters" (same leftmost non-overlapping scan, no template processing).
The refinement question of claim C6 is whether `pyReSub` equals this. -/
def plainReplace (pat rep s : String) : String :=
  String.mk (subAux pat.data rep.data s.data.length s.data)

/-- Substring test: does `pat` occur anywhere in `l`? -/
def containsSub (pat : List Char) : List Char → Bool
  | [] => pat.isPrefixOf []
  | c :: rest => pat.isPrefixOf (c :: rest) || containsSub pat rest

/-- Placeholder token `{{ name }}` of the overview template. -/
def nameTok : String := "\x7b\x7b name \x7d\x7d"

/-- Placeholder token `{{ stars }}` of the overview template. -/
def starsTok : String := "\x7b\x7b stars \x7d\x7d"

/-- Placeholder token `{{ forks }}` of the overview template. -/
def forksTok : String := "\x7b\x7b forks \x7d\x7d"

/-- Placeholder token `{{ contributions }}` of the overview template. -/
def contributionsTok : String := "\x7b\x7b contributions \x7d\x7d"

/-- Placeholder token `{{ lines_changed }}` of the overview template (its
substitution call is commented out in `generate_overview`). -/
def linesChangedTok : String := "\x7b\x7b lines_changed \x7d\x7d"

/-- Placeholder token `{{ views }}` of the overview template. -/
def viewsTok : String := "\x7b\x7b views \x7d\x7d"

/-- Placeholder token `{{ repos }}` of the overview template. -/
def reposTok : String := "\x7b\x7b repos \x7d\x7d"

/-- Placeholder token `{{ pull_requests }}` of the overview template. -/
def pullRequestsTok : String := "\x7b\x7b pull_requests \x7d\x7d"

/-- Placeholder token `{{ issues }}` of the overview template. -/
def issuesTok : String := "\x7b\x7b issues \x7d\x7d"

/-- Placeholder token `{{ progress }}` of the languages template. -/
def progressTok : String := "\x7b\x7b progress \x7d\x7d"

/-- Placeholder token `{{ lang_list }}` of the languages template. -/
def langListTok : String := "\x7b\x7b lang_list \x7d\x7d"

/-- The substitution sequence of `generate_overview` (lines 89-98): eight
`re.sub` calls, in source order; there is no call for `{{ lines_changed }}`
(that line is commented out in the source). -/
def substituteOverview (v : OverviewVals) (tmpl : String) : Except Unit String :=
  (pyReSub nameTok v.name_val tmpl).bind fun o1 =>
  (pyReSub starsTok v.stars_val o1).bind fun o2 =>
  (pyReSub forksTok v.forks_val o2).bind fun o3 =>
  (pyReSub contributionsTok v.contributions_val o3).bind fun o4 =>
  (pyReSub viewsTok v.views_val o4).bind fun o5 =>
  (pyReSub reposTok v.repos_val o5).bind fun o6 =>
  (pyReSub pullRequestsTok v.pull_requests_val o6).bind fun o7 =>
  pyReSub issuesTok v.issues_val o7

/-- The overview artifact content: resolve all fields, then substitute. -/
def overviewOutput (s : StatsFetches) (tmpl : String) : Except Unit String :=
  substituteOverview (overviewValues s) tmpl

/-!
The languages badge (`generate_languages`).  The language dict is sorted with
`sorted(items, reverse=True, key=lambda t: t[1].get("size"))`; Python's sort
is stable, and a stable descending sort places an element before exactly the
already-placed elements of strictly smaller key, which is `List.insertionSort`
with the relation "my size is at least yours".  The loop body builds two text
blocks; the per-iteration data they embed (color with its `"#000000"`
fallback, the `prop` percentage with its `get` default `0`, the
`i * delay_between` animation delay) is also exposed structurally as
`progressSegments` and `legendEntries` so that the claims about widths,
colors and delays can be stated without parsing the generated markup.
-/

/-- Sort relation of `generate_languages`: `a` may come before `b` when
`a`'s size is at least `b`'s (descending by `size`, stable on ties). -/
def sizeGe (a b : String × LangData) : Prop := b.2.size ≤ a.2.size

instance : DecidableRel sizeGe := fun _ _ => Nat.decLe _ _

instance : IsTotal (String × LangData) sizeGe :=
  ⟨fun a b => Nat.le_total b.2.size a.2.size⟩

instance : IsTrans (String × LangData) sizeGe :=
  ⟨fun _ _ _ hab hbc => Nat.le_trans hbc hab⟩

/-- The language sequence in the order the loop iterates it: descending by
`size`, Python-stable. -/
def sortedLanguages (l : List (String × LangData)) : List (String × LangData) :=
  List.insertionSort sizeGe l

/-- The fixed animation-delay step between consecutive legend entries. -/
def delay_between : Nat := 150

/-- Color of a language entry: the dict's `color` value, or the neutral
`"#000000"` when it is `None`. -/
def segColor (d : LangData) : String :=
  match d.color with
  | some c => c
  | none => "#000000"

/-- One progress-bar segment: the data the loop embeds in one
`<span ... class="progress-item">` element. -/
structure Segment where
  color : String
  width : Rat
deriving DecidableEq, Repr

/-- One legend entry: the data the loop embeds in one `<li>` element. -/
structure LegendEntry where
  name : String
  color : String
  percent : Rat
  delay : Nat
deriving DecidableEq, Repr

/-- The progress-bar block, structurally: one segment per language, in
iteration order, width `data.get("prop", 0)` and color `segColor`. -/
def progressSegments (m : List (String × LangData)) : List Segment :=
  m.map fun p => { color := segColor p.2, width := p.2.prop.getD 0 }

/-- The legend block from position `i` on: one entry per language, delay
`i * delay_between` (the loop's `enumerate` counter times the step). -/
def legendAux (i : Nat) : List (String × LangData) → List LegendEntry
  | [] => []
  | p :: rest =>
    { name := p.1, color := segColor p.2, percent := p.2.prop.getD 0,
      delay := i * delay_between } :: legendAux (i + 1) rest

/-- The legend block, structurally (the loop starts its counter at 0). -/
def legendEntries (m : List (String × LangData)) : List LegendEntry :=
  legendAux 0 m

/-- Zero-pad a natural number to `k` digits. Helper for `fmtFix`. -/
def padZeros (k m : Nat) : String :=
  let ds := Nat.toDigits 10 m
  String.mk (List.replicate (k - ds.length) '0' ++ ds)

/-- Fixed-point rendering of a nonnegative rational with `k` decimals
(Python's `f"{x:0.kf}"` for values exactly representable with `k` decimals;
rounding of inexact binary floats is outside the scope of the claims, which
only evaluate this on exact values).  Computed with integer arithmetic on
the rational's numerator and denominator. -/
def fmtFix (k : Nat) (q : Rat) : String :=
  let n : Nat := q.num.toNat * 10 ^ k / q.den
  natStr (n / 10 ^ k) ++ "." ++ padZeros k (n % 10 ^ k)

/-- The text the loop appends to `progress` for one language. -/
def progressItem (p : String × LangData) : String :=
  "<span style=\"background-color: " ++ segColor p.2 ++ ";width: " ++
    fmtFix 3 (p.2.prop.getD 0) ++ "%;\" class=\"progress-item\"></span>"

/-- The full `progress` string. -/
def progressBlock (m : List (String × LangData)) : String :=
  String.join (m.map progressItem)

/-- The text the loop appends to `lang_list` for language `p` at position
`i` (the f-string of the source, with its literal newlines). -/
def langItem (i : Nat) (p : String × LangData) : String :=
  "\n<li style=\"animation-delay: " ++ natStr (i * delay_between) ++
    "ms;\">\n<svg xmlns=\"http://www.w3.org/2000/svg\" class=\"octicon\" style=\"fill:" ++
    segColor p.2 ++
    ";\"\nviewBox=\"0 0 16 16\" version=\"1.1\" width=\"16\" height=\"16\"><path\nfill-rule=\"evenodd\" d=\"M8 4a4 4 0 100 8 4 4 0 000-8z\"></path></svg>\n<span class=\"lang\">" ++
    p.1 ++ "</span>\n<span class=\"percent\">" ++ fmtFix 2 (p.2.prop.getD 0) ++
    "%</span>\n</li>\n\n"

/-- The full `lang_list` string from position `i` on. -/
def langListAux (i : Nat) : List (String × LangData) → String
  | [] => ""
  | p :: rest => langItem i p ++ langListAux (i + 1) rest

/-- The full `lang_list` string. -/
def langListBlock (m : List (String × LangData)) : String :=
  langListAux 0 m

/-- The languages artifact content: a failing `s.languages` fetch fails the
whole badge (there is no `try/except` around it); otherwise sort, build both
blocks, and substitute the two placeholders. -/
def languagesOutput (ls : Fetch (List (String × LangData))) (tmpl : String) :
    Except Unit String :=
  ls.bind fun l =>
    let m := sortedLanguages l
    (pyReSub progressTok (progressBlock m) tmpl).bind fun o1 =>
    pyReSub langListTok (langListBlock m) o1

/-!
The orchestrator (`main`).  Environment access is modelled as a function from
variable name to `Option String`.  `main` validates the credential and the
identity first (raising before the network session, the `Stats` object and
any file output exist), parses the filter flags, then runs the two badge
generators under `asyncio.gather`.  `runMain` returns the list of observable
events (fetches, directory creation, file writes) together with the fatal
validation error, if any; the two generators' events are concatenated in the
`gather` argument order (they run concurrently; no claim checked here depends
on their relative order).
-/

/-- ASCII whitespace stripped by Python's `str.strip()` (the claims only
exercise ASCII values; Python additionally strips some Unicode spaces). -/
def isPyWhitespace (c : Char) : Bool :=
  c = ' ' || c = '\t' || c = '\n' || c = '\r' || c = '\x0b' || c = '\x0c'

/-- Python's `str.strip()`: drop whitespace from both ends. -/
def pyStrip (s : String) : String :=
  String.mk (((s.data.dropWhile isPyWhitespace).reverse.dropWhile
    isPyWhitespace).reverse)

/-- Python's `str.lower()` on the ASCII range the claims exercise. -/
def pyLower (s : String) : String :=
  String.mk (s.data.map Char.toLower)

/-- Python truthiness-based flag parsing of `main` (lines 170-179):
`not not raw and raw.strip().lower() != "false"`. `None` and the empty
string are falsy; any other value is enabled unless it strips and lowercases
to exactly `"false"`. -/
def truthyFlag : Option String → Bool
  | none => false
  | some s => !s.isEmpty && pyLower (pyStrip s) != "false"

/-- Python's `a or b` on optional strings: `b` when `a` is `None` or empty,
otherwise `a`. -/
def pyOr (a b : Option String) : Option String :=
  match a with
  | some s => if s.isEmpty then b else some s
  | none => b

/-- The `ignore_forked_repos` flag computed by `main` from
`EXCLUDE_FORKED_REPOS`. -/
def ignore_forked_repos (env : String → Option String) : Bool :=
  truthyFlag (env "EXCLUDE_FORKED_REPOS")

/-- The `ignore_contrib_repos` flag computed by `main` from
`EXCLUDE_CONTRIBS or EXCLUDE_CONTRIBUTED`. -/
def ignore_contrib_repos (env : String → Option String) : Bool :=
  truthyFlag (pyOr (env "EXCLUDE_CONTRIBS") (env "EXCLUDE_CONTRIBUTED"))

/-- The two fatal precondition failures `main` can raise. -/
inductive MainError
  | missingToken
  | missingActor
deriving DecidableEq, Repr

/-- Observable side effects of a run. -/
inductive Event
  | fetch (field : String)
  | mkdir
  | write (path content : String)
deriving DecidableEq, Repr

/-- Events of `generate_overview`: all nine fetches are attempted (failures
are caught per field), then the output folder is ensured and the artifact
written (unless a substitution itself raises). -/
def overviewEvents (s : StatsFetches) (tmpl : String) : List Event :=
  [Event.fetch "name", Event.fetch "stargazers", Event.fetch "forks",
   Event.fetch "total_contributions", Event.fetch "lines_changed",
   Event.fetch "views", Event.fetch "repos", Event.fetch "total_pull_requests",
   Event.fetch "total_issues_created"] ++
  match overviewOutput s tmpl with
  | .ok o => [Event.mkdir, Event.write "generated/overview.svg" o]
  | .error _ => []

/-- Events of `generate_languages`: one fetch; on its failure the badge
fails as a whole and nothing is written. -/
def languagesEvents (s : StatsFetches) (tmpl : String) : List Event :=
  Event.fetch "languages" ::
  match languagesOutput s.languages tmpl with
  | .ok o => [Event.mkdir, Event.write "generated/languages.svg" o]
  | .error _ => []

/-- The run of `main` (validation order of lines 155-161, then the badge
generators): `ACCESS_TOKEN` is rejected when absent or falsy
(`if not access_token`), `GITHUB_ACTOR` only when absent
(`if user is None`); a rejection raises before any event occurs. -/
def runMain (env : String → Option String) (s : StatsFetches)
    (tmplOverview tmplLangs : String) : List Event × Option MainError :=
  if ((env "ACCESS_TOKEN").getD "").isEmpty then ([], some MainError.missingToken)
  else
    match env "GITHUB_ACTOR" with
    | none => ([], some MainError.missingActor)
    | some _ =>
      (languagesEvents s tmplLangs ++ overviewEvents s tmplOverview, none)

/-!
Concrete sample inputs used by the witnesses and counterexamples below.
The template files live under `templates/` in the repository and are not part
of the analysed source, so they are modelled from the spec.
-/

/-- Modelled from the spec: the overview template (`templates/overview.svg`,
not part of the analysed source).  Per the spec's Badge Specification, it
contains one placeholder for each of the nine metric fields of the §4.1
table, including the lines-changed placeholder, inside literal markup. -/
def overviewTemplate : String :=
  "<svg><text>" ++ nameTok ++ "|" ++ starsTok ++ "|" ++ forksTok ++ "|" ++
    contributionsTok ++ "|" ++ linesChangedTok ++ "|" ++ viewsTok ++ "|" ++
    reposTok ++ "|" ++ pullRequestsTok ++ "|" ++ issuesTok ++ "</text></svg>"

/-- Modelled from the spec: the languages template
(`templates/languages.svg`, not part of the analysed source), containing the
progress and legend placeholders inside literal markup. -/
def languagesTemplate : String :=
  "<svg><div>" ++ progressTok ++ "</div><ul>" ++ langListTok ++ "</ul></svg>"

/-- A provider where every accessor succeeds. -/
def statsAllOk : StatsFetches where
  name := .ok "Pushpakumar"
  stargazers := .ok 12345
  forks := .ok 7
  total_contributions := .ok 1048
  lines_changed := .ok (400, 200)
  views := .ok 42
  repos := .ok ["r1", "r2", "r3"]
  total_pull_requests := .ok 12
  total_issues_created := .ok 3
  languages := .ok
    [("A", ⟨50, none, some 25⟩), ("B", ⟨200, some "#3572A5", some 50⟩),
     ("C", ⟨100, none, some 25⟩)]

/-- A provider where the name and lines-changed fetches raise and the rest
succeed. -/
def statsNameLinesFail : StatsFetches where
  name := .error ()
  stargazers := .ok 12345
  forks := .ok 0
  total_contributions := .ok 1
  lines_changed := .error ()
  views := .ok 2
  repos := .ok []
  total_pull_requests := .ok 4
  total_issues_created := .ok 5
  languages := .error ()

/-- The language example of the spec: sizes A=50, B=200, C=100 in insertion
order. -/
def exLangs : List (String × LangData) :=
  [("A", ⟨50, none, none⟩), ("B", ⟨200, none, none⟩), ("C", ⟨100, none, none⟩)]

/-- Two languages with explicit colors/proportions for the witnesses. -/
def sampleLangs : List (String × LangData) :=
  [("Python", ⟨100, some "#3572A5", some 60⟩), ("C", ⟨40, none, some 40⟩)]

/-- Environment with no variables set. -/
def envNone (_ : String) : Option String := none

/-- Environment with a valid credential and identity only. -/
def envGood (k : String) : Option String :=
  if k = "ACCESS_TOKEN" then some "tok"
  else if k = "GITHUB_ACTOR" then some "user" else none

/-- Environment where the credential is set to the empty string. -/
def envEmptyToken (k : String) : Option String :=
  if k = "ACCESS_TOKEN" then some "" else none

/-- Environment with a valid credential and no identity. -/
def envNoActor (k : String) : Option String :=
  if k = "ACCESS_TOKEN" then some "tok" else none

/-- Environment with a valid credential and an empty-string identity. -/
def envEmptyActor (k : String) : Option String :=
  if k = "ACCESS_TOKEN" then some "tok"
  else if k = "GITHUB_ACTOR" then some "" else none

/-- Environment where the forked-repos flag is present but empty. -/
def envEmptyFlag (k : String) : Option String :=
  if k = "EXCLUDE_FORKED_REPOS" then some "" else none

/-- Environment where the forked-repos flag is `"1"`. -/
def envFlagOne (k : String) : Option String :=
  if k = "EXCLUDE_FORKED_REPOS" then some "1" else none

/-!
Claim theorems.
-/

/-- C1: for every overview metric field, the resolved display string is the
formatted fetched value when the fetch succeeds and the §4.1 fallback
(`"Unknown"` for name, `"N/A"` for lines changed, `"0"` for the rest) when
the fetch raises; resolution is a total function (no exception escapes, one
field's failure does not abort the others) and the resolved mapping has an
entry for every field. -/
theorem claim_c1 (s : StatsFetches) :
    (resolvedMapping s).map Prod.fst = overviewFieldNames ∧
    (∀ v, s.name = .ok v →
      (resolvedMapping s).lookup "name" = some v) ∧
    (s.name = .error () →
      (resolvedMapping s).lookup "name" = some "Unknown") ∧
    (∀ n, s.stargazers = .ok n →
      (resolvedMapping s).lookup "stars" = some (fmtComma n)) ∧
    (s.stargazers = .error () →
      (resolvedMapping s).lookup "stars" = some "0") ∧
    (∀ n, s.forks = .ok n →
      (resolvedMapping s).lookup "forks" = some (fmtComma n)) ∧
    (s.forks = .error () →
      (resolvedMapping s).lookup "forks" = some "0") ∧
    (∀ n, s.total_contributions = .ok n →
      (resolvedMapping s).lookup "contributions" = some (fmtComma n)) ∧
    (s.total_contributions = .error () →
      (resolvedMapping s).lookup "contributions" = some "0") ∧
    (∀ a b, s.lines_changed = .ok (a, b) →
      (resolvedMapping s).lookup "lines_changed" = some (fmtComma (a + b))) ∧
    (s.lines_changed = .error () →
      (resolvedMapping s).lookup "lines_changed" = some "N/A") ∧
    (∀ n, s.views = .ok n →
      (resolvedMapping s).lookup "views" = some (fmtComma n)) ∧
    (s.views = .error () →
      (resolvedMapping s).lookup "views" = some "0") ∧
    (∀ l, s.repos = .ok l →
      (resolvedMapping s).lookup "repos" = some (fmtComma l.length)) ∧
    (s.repos = .error () →
      (resolvedMapping s).lookup "repos" = some "0") ∧
    (∀ n, s.total_pull_requests = .ok n →
      (resolvedMapping s).lookup "pull_requests" = some (fmtComma n)) ∧
    (s.total_pull_requests = .error () →
      (resolvedMapping s).lookup "pull_requests" = some "0") ∧
    (∀ n, s.total_issues_created = .ok n →
      (resolvedMapping s).lookup "issues" = some (fmtComma n)) ∧
    (s.total_issues_created = .error () →
      (resolvedMapping s).lookup "issues" = some "0") := by
  refine ⟨rfl, ?_, ?_, ?_, ?_, ?_, ?_, ?_, ?_, ?_, ?_, ?_, ?_, ?_, ?_, ?_,
    ?_, ?_, ?_⟩ <;>
  · intros
    simp_all [resolvedMapping, overviewValues, List.lookup]

/-- Witness for C1 at a concrete provider where the name and lines-changed
fetches fail and the stargazer fetch returns 12345. -/
theorem claim_c1_witness :
    (resolvedMapping statsNameLinesFail).lookup "name" = some "Unknown" ∧
    (resolvedMapping statsNameLinesFail).lookup "stars" = some "12,345" ∧
    (resolvedMapping statsNameLinesFail).lookup "lines_changed" = some "N/A" :=
  ⟨(claim_c1 statsNameLinesFail).2.2.1 rfl,
   (claim_c1 statsNameLinesFail).2.2.2.1 12345 rfl,
   (claim_c1 statsNameLinesFail).2.2.2.2.2.2.2.2.2.2.1 rfl⟩

/-- C5: the lines-changed field is all-or-nothing: the display string is the
thousands-separated rendering of added+deleted when the fetch of the pair
succeeds, exactly `"N/A"` when it raises, and never anything else (no
partial sum). -/
theorem claim_c5 (s : StatsFetches) :
    (∀ a b, s.lines_changed = .ok (a, b) →
      (overviewValues s).changed_val = fmtComma (a + b)) ∧
    (∀ e, s.lines_changed = .error e →
      (overviewValues s).changed_val = "N/A") ∧
    ((overviewValues s).changed_val = "N/A" ∨
      ∃ a b, s.lines_changed = .ok (a, b) ∧
        (overviewValues s).changed_val = fmtComma (a + b)) := by
  refine ⟨?_, ?_, ?_⟩
  · intro a b h
    simp [overviewValues, h]
  · intro e h
    simp [overviewValues, h]
  · cases h : s.lines_changed with
    | ok p =>
      obtain ⟨a, b⟩ := p
      exact Or.inr ⟨a, b, rfl, by simp [overviewValues, h]⟩
    | error e =>
      exact Or.inl (by simp [overviewValues, h])

/-- Witness for C5: added 400, deleted 200 renders `"600"`; a failing fetch
renders `"N/A"`. -/
theorem claim_c5_witness :
    (overviewValues statsAllOk).changed_val = "600" ∧
    (overviewValues statsNameLinesFail).changed_val = "N/A" :=
  ⟨(claim_c5 statsAllOk).1 400 200 rfl,
   (claim_c5 statsNameLinesFail).2.1 () rfl⟩

/-- A string's `isEmpty` is `false` exactly when it is not the empty
string. -/
theorem isEmpty_false_iff (s : String) : s.isEmpty = false ↔ s ≠ "" := by
  rw [← Bool.not_eq_true, not_iff_not, String.isEmpty_iff]

/-- The empty string's `isEmpty` is `true`. -/
theorem empty_isEmpty : "".isEmpty = true := rfl

/-- A flag parses as enabled exactly when its value is present, nonempty,
and does not trim-and-lowercase to `"false"`. -/
theorem truthyFlag_eq_true_iff (v : Option String) :
    truthyFlag v = true ↔ ∃ s, v = some s ∧ s ≠ "" ∧ pyLower (pyStrip s) ≠ "false" := by
  cases v with
  | none => simp [truthyFlag]
  | some s =>
    simp only [truthyFlag, Bool.and_eq_true, Bool.not_eq_true', bne_iff_ne, ne_eq,
      Option.some.injEq, isEmpty_false_iff]
    constructor
    · rintro ⟨h1, h2⟩
      exact ⟨s, rfl, h1, h2⟩
    · rintro ⟨t, ht, h1, h2⟩
      cases ht
      exact ⟨h1, h2⟩

/-- C3 counterexample: `EXCLUDE_FORKED_REPOS` set to the empty string is
present and its trimmed lowercase form is not `"false"`, yet the flag parses
as disabled — refuting the claim that every present value other than
`"false"`, including an empty-but-present string, parses as enabled. -/
theorem claim_c3_counterexample :
    envEmptyFlag "EXCLUDE_FORKED_REPOS" = some "" ∧
    pyLower (pyStrip "") ≠ "false" ∧
    ignore_forked_repos envEmptyFlag = false := by
  refine ⟨rfl, by decide, rfl⟩

/-- C3 as amended: a boolean filter flag (`EXCLUDE_FORKED_REPOS`, and
`EXCLUDE_CONTRIBS` falling back to `EXCLUDE_CONTRIBUTED` under Python's
`or`) is parsed as enabled if and only if its source value is present,
nonempty, and, after trimming whitespace and lowercasing, is not the literal
text `"false"`; an empty-but-present string parses as disabled. -/
theorem claim_c3_amended (env : String → Option String) :
    (ignore_forked_repos env = true ↔
      ∃ s, env "EXCLUDE_FORKED_REPOS" = some s ∧ s ≠ "" ∧
        pyLower (pyStrip s) ≠ "false") ∧
    (ignore_contrib_repos env = true ↔
      ∃ s, pyOr (env "EXCLUDE_CONTRIBS") (env "EXCLUDE_CONTRIBUTED") = some s ∧
        s ≠ "" ∧ pyLower (pyStrip s) ≠ "false") :=
  ⟨truthyFlag_eq_true_iff _, truthyFlag_eq_true_iff _⟩

/-- Witness for C3: the value `"1"` parses as enabled. -/
theorem claim_c3_witness : ignore_forked_repos envFlagOne = true :=
  (claim_c3_amended envFlagOne).1.mpr ⟨"1", rfl, by decide, by decide⟩

/-- C9: with the credential absent, or with a valid credential and the
identity absent, the run fails fatally with the dedicated error and the
event list is empty — no network fetch, no directory creation, no file
write happens, and the failure is not converted into a per-field
fallback. -/
theorem claim_c9 (env : String → Option String) (s : StatsFetches)
    (tO tL : String) :
    (env "ACCESS_TOKEN" = none →
      runMain env s tO tL = ([], some MainError.missingToken)) ∧
    (∀ tok, env "ACCESS_TOKEN" = some tok → tok ≠ "" →
      env "GITHUB_ACTOR" = none →
      runMain env s tO tL = ([], some MainError.missingActor)) := by
  constructor
  · intro h
    simp [runMain, h, empty_isEmpty]
  · intro tok h1 h2 h3
    simp [runMain, h1, h3, (isEmpty_false_iff tok).mpr h2]

/-- Witness for C9 at concrete environments with no credential and with a
credential but no identity. -/
theorem claim_c9_witness :
    runMain envNone statsAllOk overviewTemplate languagesTemplate
      = ([], some MainError.missingToken) ∧
    runMain envNoActor statsAllOk overviewTemplate languagesTemplate
      = ([], some MainError.missingActor) :=
  ⟨(claim_c9 envNone statsAllOk overviewTemplate languagesTemplate).1 rfl,
   (claim_c9 envNoActor statsAllOk overviewTemplate languagesTemplate).2
     "tok" rfl (by decide) rfl⟩

/-- C10: the two required-configuration checks are asymmetric: an
empty-string `ACCESS_TOKEN` is rejected exactly like an absent one
(`if not access_token` rejects any falsy value), while an empty-string
`GITHUB_ACTOR` is accepted (`if user is None` rejects only a truly absent
value) and the run proceeds without a fatal error. -/
theorem claim_c10 (env : String → Option String) (s : StatsFetches)
    (tO tL : String) :
    (env "ACCESS_TOKEN" = some "" →
      runMain env s tO tL = ([], some MainError.missingToken)) ∧
    (∀ tok, env "ACCESS_TOKEN" = some tok → tok ≠ "" →
      env "GITHUB_ACTOR" = some "" → (runMain env s tO tL).2 = none) := by
  constructor
  · intro h
    simp [runMain, h, empty_isEmpty]
  · intro tok h1 h2 h3
    simp [runMain, h1, h3, (isEmpty_false_iff tok).mpr h2]

/-- Witness for C10 at concrete environments with an empty credential and
with an empty identity. -/
theorem claim_c10_witness :
    runMain envEmptyToken statsAllOk overviewTemplate languagesTemplate
      = ([], some MainError.missingToken) ∧
    (runMain envEmptyActor statsAllOk overviewTemplate languagesTemplate).2
      = none :=
  ⟨(claim_c10 envEmptyToken statsAllOk overviewTemplate languagesTemplate).1
     rfl,
   (claim_c10 envEmptyActor statsAllOk overviewTemplate languagesTemplate).2
     "tok" rfl (by decide) rfl⟩

/-- A replacement template without a backslash passes through template
processing unchanged. -/
theorem unescape_no_backslash (matched : List Char) :
    ∀ (fuel : Nat) (r : List Char), r.length ≤ fuel → ('\\' : Char) ∉ r →
      unescapeAux matched fuel r = .ok r := by
  intro fuel
  induction fuel with
  | zero =>
    intro r hlen _
    cases r with
    | nil => rfl
    | cons c rest => simp at hlen
  | succ fuel ih =>
    intro r hlen hnb
    cases r with
    | nil => rfl
    | cons c rest =>
      have hc : c ≠ '\\' := fun hc => hnb (hc ▸ List.mem_cons_self c rest)
      have hrest : ('\\' : Char) ∉ rest := fun hm => hnb (List.mem_cons_of_mem c hm)
      simp only [unescapeAux, if_neg hc, ih rest (Nat.le_of_succ_le_succ hlen) hrest]
      rfl

/-- A text without any occurrence of the pattern is returned unchanged by
the scan-and-replace pass. -/
theorem sub_no_occurrence (pat rep : List Char) :
    ∀ l : List Char, containsSub pat l = false → subAux pat rep l.length l = l := by
  intro l
  induction l with
  | nil => intro _; rfl
  | cons c rest ih =>
    intro h
    simp only [containsSub, Bool.or_eq_false_iff] at h
    simp [subAux, h.1, ih h.2]

/-- C6 counterexample: substitution is not plain text substitution for every
replacement text.  With the replacement consisting of the two characters
backslash backslash, `re.sub` inserts a single backslash (replacement
template processing), not the replacement text verbatim. -/
theorem claim_c6_counterexample :
    pyReSub nameTok "\\\\" "x\x7b\x7b name \x7d\x7dy" ≠
      Except.ok (plainReplace nameTok "\\\\" "x\x7b\x7b name \x7d\x7dy") := by
  decide

/-- C6 as amended: for replacement texts containing no backslash (which
includes every value the program substitutes), the substitution equals plain
text substitution — every occurrence of the placeholder is replaced by
exactly the replacement text inserted verbatim, the output is byte-identical
to the template outside the substituted tokens, and a template without the
placeholder (in particular one whose placeholders have no mapping entry) is
returned verbatim with no error.  Replacements containing a backslash
undergo regex replacement-template processing instead. -/
theorem claim_c6_amended (pat rep s : String) (h : ('\\' : Char) ∉ rep.data) :
    pyReSub pat rep s = Except.ok (plainReplace pat rep s) ∧
    (containsSub pat.data s.data = false → pyReSub pat rep s = Except.ok s) := by
  have hu : unescapeRepl pat.data rep.data = .ok rep.data :=
    unescape_no_backslash pat.data rep.data.length rep.data (Nat.le_refl _) h
  constructor
  · simp [pyReSub, hu, plainReplace]
  · intro hc
    simp only [pyReSub, hu]
    rw [sub_no_occurrence pat.data rep.data s.data hc]

/-- Witness for C6 at a concrete backslash-free replacement: the placeholder
is replaced, and a text without the placeholder passes through unchanged. -/
theorem claim_c6_witness :
    pyReSub nameTok "7" "x\x7b\x7b name \x7d\x7dy" =
      Except.ok (plainReplace nameTok "7" "x\x7b\x7b name \x7d\x7dy") ∧
    pyReSub nameTok "7" "zz" = Except.ok "zz" :=
  ⟨(claim_c6_amended nameTok "7" "x\x7b\x7b name \x7d\x7dy" (by decide)).1,
   (claim_c6_amended nameTok "7" "zz" (by decide)).2 (by decide)⟩

/-- The legend block has one entry per language. -/
theorem legendAux_length : ∀ (m : List (String × LangData)) (i : Nat),
    (legendAux i m).length = m.length := by
  intro m
  induction m with
  | nil => intro i; rfl
  | cons p rest ih => intro i; simp [legendAux, ih]

/-- Delays of the legend block starting at position `i`: position times the
fixed step. -/
theorem legendAux_delay_map : ∀ (m : List (String × LangData)) (i : Nat),
    (legendAux i m).map LegendEntry.delay =
      (List.range m.length).map (fun j => (i + j) * delay_between) := by
  intro m
  induction m with
  | nil => intro i; rfl
  | cons p rest ih =>
    intro i
    simp only [legendAux, List.map_cons, ih (i + 1), List.length_cons,
      List.range_succ_eq_map, List.map_map]
    refine congrArg₂ _ (by simp) ?_
    refine List.map_congr_left fun j _ => ?_
    simp only [Function.comp_apply, Nat.succ_eq_add_one]
    ring

/-- Every delay in the legend block starting at position `i` is at least
`i * delay_between`. -/
theorem legendAux_delay_lb : ∀ (m : List (String × LangData)) (i : Nat),
    ∀ e ∈ legendAux i m, i * delay_between ≤ e.delay := by
  intro m
  induction m with
  | nil => intro i e he; simp [legendAux] at he
  | cons p rest ih =>
    intro i e he
    rcases List.mem_cons.mp he with h | h
    · rw [h]
    · exact Nat.le_trans
        (Nat.mul_le_mul_right delay_between (Nat.le_succ i)) (ih (i + 1) e h)

/-- Legend delays are strictly increasing along the block. -/
theorem legendAux_delay_increasing : ∀ (m : List (String × LangData)) (i : Nat),
    (legendAux i m).Pairwise (fun x y => x.delay < y.delay) := by
  intro m
  induction m with
  | nil => intro i; exact List.Pairwise.nil
  | cons p rest ih =>
    intro i
    refine List.Pairwise.cons (fun y hy => ?_) (ih (i + 1))
    have h1 : i * delay_between < (i + 1) * delay_between := by
      simp only [delay_between]
      omega
    exact Nat.lt_of_lt_of_le h1 (legendAux_delay_lb rest (i + 1) y hy)

/-- C7: the languages badge iterates the entries sorted descending by
`size` (the sorted sequence is a permutation of the input, pairwise
nonincreasing in `size`), the legend assigns each entry a delay equal to its
zero-based position times the fixed 150-unit step, so delays are strictly
increasing; on the spec's example sizes A=50, B=200, C=100 the order is
[B, C, A] with delays [0, 150, 300]. -/
theorem claim_c7 (l : List (String × LangData)) :
    List.Perm (sortedLanguages l) l ∧
    List.Pairwise (fun a b : String × LangData => b.2.size ≤ a.2.size)
      (sortedLanguages l) ∧
    (legendEntries (sortedLanguages l)).map LegendEntry.delay =
      (List.range (sortedLanguages l).length).map (· * delay_between) ∧
    (legendEntries (sortedLanguages l)).Pairwise
      (fun x y => x.delay < y.delay) ∧
    (sortedLanguages exLangs).map Prod.fst = ["B", "C", "A"] ∧
    (legendEntries (sortedLanguages exLangs)).map LegendEntry.delay
      = [0, 150, 300] := by
  refine ⟨List.perm_insertionSort sizeGe l, List.sorted_insertionSort sizeGe l,
    ?_, legendAux_delay_increasing _ 0, by decide, by decide⟩
  have h := legendAux_delay_map (sortedLanguages l) 0
  simpa using h

/-- The `j`-th legend entry carries the `j`-th language's name, color with
its neutral fallback, `prop` with its default, and delay `(i + j)` times the
step. -/
theorem legendAux_get : ∀ (m : List (String × LangData)) (i j : Nat)
    (hj : j < (legendAux i m).length) (hj2 : j < m.length),
    (legendAux i m).get ⟨j, hj⟩ =
      { name := (m.get ⟨j, hj2⟩).1, color := segColor (m.get ⟨j, hj2⟩).2,
        percent := ((m.get ⟨j, hj2⟩).2.prop).getD 0,
        delay := (i + j) * delay_between } := by
  intro m
  induction m with
  | nil => intro i j hj hj2; simp at hj2
  | cons p rest ih =>
    intro i j hj hj2
    cases j with
    | zero => simp [legendAux]
    | succ j =>
      have hj3 : j < (legendAux (i + 1) rest).length := by
        simp only [legendAux_length]
        exact Nat.lt_of_succ_lt_succ hj2
      have hrec := ih (i + 1) j hj3 (Nat.lt_of_succ_lt_succ hj2)
      simp only [legendAux, List.get_cons_succ, hrec]
      congr 1
      ring

/-- The `j`-th progress segment carries the `j`-th language's color with its
neutral fallback and its `prop` with its default as width. -/
theorem progressSegments_get (m : List (String × LangData)) (j : Nat)
    (hj : j < (progressSegments m).length) (hj2 : j < m.length) :
    (progressSegments m).get ⟨j, hj⟩ =
      { color := segColor (m.get ⟨j, hj2⟩).2,
        width := ((m.get ⟨j, hj2⟩).2.prop).getD 0 } := by
  simp [progressSegments, List.getElem_map]

/-- C8: for every language entry there is exactly one progress-bar segment
(the block has one segment per entry, positionally), its width is the
entry's proportion (`prop` with default 0) and its color the entry's color
with the neutral `"#000000"` fallback; the legend entry at the same position
uses the same color and the same proportion value, and carries the
language's name. -/
theorem claim_c8 (m : List (String × LangData)) (i : Nat) (hi : i < m.length) :
    (progressSegments m).length = m.length ∧
    (legendEntries m).length = m.length ∧
    ∀ (h1 : i < (progressSegments m).length)
      (h2 : i < (legendEntries m).length),
      ((progressSegments m).get ⟨i, h1⟩).color = segColor (m.get ⟨i, hi⟩).2 ∧
      ((progressSegments m).get ⟨i, h1⟩).width
        = ((m.get ⟨i, hi⟩).2.prop).getD 0 ∧
      ((legendEntries m).get ⟨i, h2⟩).color
        = ((progressSegments m).get ⟨i, h1⟩).color ∧
      ((legendEntries m).get ⟨i, h2⟩).percent
        = ((progressSegments m).get ⟨i, h1⟩).width ∧
      ((legendEntries m).get ⟨i, h2⟩).name = (m.get ⟨i, hi⟩).1 := by
  refine ⟨by simp [progressSegments], legendAux_length m 0, ?_⟩
  intro h1 h2
  have hseg := progressSegments_get m i h1 hi
  have hleg := legendAux_get m 0 i h2 hi
  simp only [legendEntries] at h2 ⊢
  rw [hseg, hleg]
  exact ⟨rfl, rfl, rfl, rfl, rfl⟩

/-- Witness for C8 at a concrete two-language list: the first segment has
width 60 and the legend entry at the same position the same color
`"#3572A5"` and percent 60. -/
theorem claim_c8_witness :
    ((progressSegments sampleLangs).get ⟨0, by decide⟩).width = 60 ∧
    ((legendEntries sampleLangs).get ⟨0, by decide⟩).color = "#3572A5" ∧
    ((legendEntries sampleLangs).get ⟨0, by decide⟩).percent = 60 := by
  have h := (claim_c8 sampleLangs 0 (by decide)).2.2 (by decide) (by decide)
  refine ⟨h.2.1, ?_, ?_⟩
  · rw [h.2.2.1, h.1]
    decide
  · rw [h.2.2.2.1, h.2.1]
    decide

set_option maxRecDepth 8192 in
/-- C2, evaluated at the failing input: on a fully successful run over the
spec-modelled templates, the overview artifact still contains the unresolved
`lines_changed` placeholder (its substitution call is commented out in the
source, even though the value is computed), while the name placeholder was
substituted (so the artifact is partially substituted) and the languages
artifact contains no `\x7b\x7b` token at all. -/
theorem claim_c2_lines_unsubstituted :
    ((overviewOutput statsAllOk overviewTemplate).map fun o =>
      containsSub linesChangedTok.data o.data) = Except.ok true ∧
    ((overviewOutput statsAllOk overviewTemplate).map fun o =>
      containsSub nameTok.data o.data) = Except.ok false ∧
    ((languagesOutput statsAllOk.languages languagesTemplate).map fun o =>
      containsSub ("\x7b\x7b".data) o.data) = Except.ok false := by
  refine ⟨by decide, by decide, by decide⟩
